import Mathlib

/-!
Verification of the Tapestry browser extension core (peer side):
a shallow embedding of the connection/correlation state machine in
`src/extension/src/background/background.ts`, the zod message schemas in
`src/extension/src/background/messages.ts` and `src/extension/src/shared/messages.ts`,
the settings loader in `src/extension/src/shared/settings.ts`, and the safe
messaging helpers in `src/extension/src/shared/connection.ts`.

Side effects of the background script (posting frames on the native port,
invoking stored response callbacks, broadcasting runtime messages, opening
and disconnecting ports) are made explicit as an `Event` trace emitted by
each handler, in the order the corresponding statements run in the source.
-/

namespace Tapestry

/-- JSON-like values exchanged over chrome messaging, as seen by the zod
validators.  A missing object key models a JavaScript `undefined` field. -/
inductive JValue where
  | null
  | bool (b : Bool)
  | num (n : Int)
  | str (s : String)
  | arr (elems : List JValue)
  | obj (fields : List (String × JValue))

/-- Field lookup on a JSON object, first occurrence of the key. -/
def getField (fields : List (String × JValue)) (key : String) : Option JValue :=
  match fields.find? (fun p => p.1 == key) with
  | some p => some p.2
  | none => none

/-- Hexadecimal digit test used by the UUID pattern of `z.uuid()`. -/
def isHexDigit (c : Char) : Bool :=
  c.isDigit || (('a' ≤ c) && (c ≤ 'f')) || (('A' ≤ c) && (c ≤ 'F'))

/-- Consume exactly `n` hexadecimal characters from the front of the list. -/
def hexChunk : Nat → List Char → Option (List Char)
  | 0, rest => some rest
  | n + 1, c :: rest => if isHexDigit c then hexChunk n rest else none
  | _ + 1, [] => none

/-- Consume one dash character. -/
def dashChunk : List Char → Option (List Char)
  | c :: rest => if c = '-' then some rest else none
  | [] => none

/-- Version digit of the UUID pattern: `[1-8]`. -/
def isVersionDigit (c : Char) : Bool :=
  ('1' ≤ c) && (c ≤ '8')

/-- Variant character of the UUID pattern: `[89abAB]`. -/
def isVariantChar (c : Char) : Bool :=
  c = '8' || c = '9' || c = 'a' || c = 'b' || c = 'A' || c = 'B'

/-- Matching engine for the general RFC 4122/9562 UUID regular expression used
by `z.uuid()`: 8 hex digits, dash, 4 hex digits, dash, a version digit in 1-8
followed by 3 hex digits, dash, a variant character followed by 3 hex digits,
dash, 12 hex digits. -/
def uuidCore (cs : List Char) : Option (List Char) :=
  (hexChunk 8 cs).bind (fun r1 =>
    (dashChunk r1).bind (fun r2 =>
      (hexChunk 4 r2).bind (fun r3 =>
        (dashChunk r3).bind (fun r4 =>
          (match r4 with
            | c :: rest => if isVersionDigit c then hexChunk 3 rest else none
            | [] => none).bind (fun r5 =>
            (dashChunk r5).bind (fun r6 =>
              (match r6 with
                | c :: rest => if isVariantChar c then hexChunk 3 rest else none
                | [] => none).bind (fun r7 =>
                (dashChunk r7).bind (fun r8 =>
                  hexChunk 12 r8))))))))

/-- UUID string validation of `z.uuid()`, including the two special cases for
the nil UUID and the max UUID admitted by the zod pattern. -/
def isUUID (s : String) : Bool :=
  if s = "00000000-0000-0000-0000-000000000000" then true
  else if s = "ffffffff-ffff-ffff-ffff-ffffffffffff" then true
  else match uuidCore s.toList with
    | some [] => true
    | _ => false

/-- NativeResponse mirrors the inferred type of `NativeResponseSchema` in
`background/messages.ts`.  Fields declared `z.optional(z.nullable(...))` are
collapsed to a single `Option`, with `none` standing for both `undefined` and
`null`; the handlers only ever read them through `?? null`, which identifies
the two. -/
inductive NativeResponse where
  | pong (id : String) (resolvedPath : Option String) (version : Option String) (valid : Bool)
  | patternsList (id : String) (patterns : List String)
  | contextsList (id : String) (contexts : List String)
  | content (id : String) (content : String)
  | done (id : String) (exitCode : Option Int)
  | error (id : String) (message : String)
  | cancelled (id : String) (requestId : String)
deriving DecidableEq

/-- NativeRequest mirrors the inferred type of `NativeRequestSchema` in
`background/messages.ts`. -/
inductive NativeRequest where
  | ping (id : String) (path : Option String)
  | listPatterns (id : String) (path : Option String)
  | listContexts (id : String) (path : Option String)
  | processContent (id : String) (content : String) (model : Option String)
      (pattern : Option String) (context : Option String) (path : Option String)
      (customPrompt : Option String)
  | cancelProcess (id : String) (requestId : String) (path : Option String)
deriving DecidableEq

/-- InternalRequest mirrors the inferred type of `InternalRequestSchema` in
`shared/messages.ts`.  Note the schema has no cancelProcess variant. -/
inductive InternalRequest where
  | connectionStatus
  | listPatterns
  | listContexts
  | capturePage (rawContent : Option Bool)
  | processContent (content : String) (pattern : Option String) (customPrompt : Option String)
  | reconnectNative
deriving DecidableEq

/-- Status values carried by internal connectionStatus messages. -/
inductive StatusMsg where
  | connected
  | disconnected
deriving DecidableEq

/-- InternalResponse mirrors the inferred type of `InternalResponseSchema` in
`shared/messages.ts`. -/
inductive InternalResponse where
  | connectionStatus (status : StatusMsg)
  | patternsList (patterns : List String)
  | contextsList (contexts : List String)
  | pageContent (content : String)
  | processingContent (content : String)
  | processingDone (exitCode : Option Int)
  | processingError (message : String)
deriving DecidableEq

/-- Reading of a field declared `z.optional(z.string())`: a missing key is
`undefined` and passes as `none`; a string passes; anything else fails. -/
def optStrField (fields : List (String × JValue)) (key : String) : Option (Option String) :=
  match getField fields key with
  | none => some none
  | some (JValue.str s) => some (some s)
  | some _ => none

/-- Reading of a field declared `z.optional(z.nullable(z.string()))`, with
`undefined` and `null` both collapsing to `none`. -/
def optNullStrField (fields : List (String × JValue)) (key : String) : Option (Option String) :=
  match getField fields key with
  | none => some none
  | some JValue.null => some none
  | some (JValue.str s) => some (some s)
  | some _ => none

/-- Reading of a field declared `z.optional(z.nullable(z.number()))`, with
`undefined` and `null` both collapsing to `none`. -/
def optNullNumField (fields : List (String × JValue)) (key : String) : Option (Option Int) :=
  match getField fields key with
  | none => some none
  | some JValue.null => some none
  | some (JValue.num n) => some (some n)
  | some _ => none

/-- Reading of a field declared `z.optional(z.boolean())`. -/
def optBoolField (fields : List (String × JValue)) (key : String) : Option (Option Bool) :=
  match getField fields key with
  | none => some none
  | some (JValue.bool b) => some (some b)
  | some _ => none

/-- Reading of a value declared `z.array(z.string())`. -/
def strListValue : JValue → Option (List String)
  | JValue.arr elems => elems.mapM (fun v => match v with
      | JValue.str s => some s
      | _ => none)
  | _ => none

/-- Validation of the mandatory correlation id field `id: z.uuid()` shared by
every native response variant.  Each variant parser below checks it; zod
validates the fields of a `z.object` conjunctively, so checking the id first
does not change which payloads are accepted. -/
def validIdField (fields : List (String × JValue)) : Bool :=
  match getField fields "id" with
  | some (JValue.str id) => isUUID id
  | _ => false

/-- Shared validation of the mandatory `id: z.uuid()` field that every native
response object schema declares: the remaining fields of the variant are only
consulted when the correlation id is present and a UUID. -/
def requireUuidId (fields : List (String × JValue))
    (rest : String → Option NativeResponse) : Option NativeResponse :=
  match getField fields "id" with
  | some (JValue.str id) => if isUUID id then rest id else none
  | _ => none

/-- Parser of the `native.pong` object schema. -/
def parsePong (fields : List (String × JValue)) : Option NativeResponse :=
  requireUuidId fields (fun id =>
    match optNullStrField fields "resolvedPath", optNullStrField fields "version",
        getField fields "valid" with
    | some rp, some ver, some (JValue.bool b) => some (NativeResponse.pong id rp ver b)
    | _, _, _ => none)

/-- Parser of the `native.patternsList` object schema. -/
def parsePatternsList (fields : List (String × JValue)) : Option NativeResponse :=
  requireUuidId fields (fun id =>
    match (getField fields "patterns").bind strListValue with
    | some ps => some (NativeResponse.patternsList id ps)
    | none => none)

/-- Parser of the `native.contextsList` object schema. -/
def parseContextsList (fields : List (String × JValue)) : Option NativeResponse :=
  requireUuidId fields (fun id =>
    match (getField fields "contexts").bind strListValue with
    | some cs => some (NativeResponse.contextsList id cs)
    | none => none)

/-- Parser of the `native.content` object schema. -/
def parseContentResp (fields : List (String × JValue)) : Option NativeResponse :=
  requireUuidId fields (fun id =>
    match getField fields "content" with
    | some (JValue.str c) => some (NativeResponse.content id c)
    | _ => none)

/-- Parser of the `native.done` object schema. -/
def parseDone (fields : List (String × JValue)) : Option NativeResponse :=
  requireUuidId fields (fun id =>
    match optNullNumField fields "exitCode" with
    | some ec => some (NativeResponse.done id ec)
    | none => none)

/-- Parser of the `native.error` object schema. -/
def parseErrorResp (fields : List (String × JValue)) : Option NativeResponse :=
  requireUuidId fields (fun id =>
    match getField fields "message" with
    | some (JValue.str m) => some (NativeResponse.error id m)
    | _ => none)

/-- Parser of the `native.cancelled` object schema, whose `requestId` field is
also declared `z.uuid()`. -/
def parseCancelled (fields : List (String × JValue)) : Option NativeResponse :=
  requireUuidId fields (fun id =>
    match getField fields "requestId" with
    | some (JValue.str rid) =>
        if isUUID rid then some (NativeResponse.cancelled id rid) else none
    | _ => none)

/-- Discrimination over the type tags admitted by `NativeResponseSchema`. -/
def knownNativeTag (t : String) : Bool :=
  t == "native.pong" || t == "native.patternsList" || t == "native.contextsList" ||
  t == "native.content" || t == "native.done" || t == "native.error" ||
  t == "native.cancelled"

/-- safeParse of `NativeResponseSchema`, a `z.discriminatedUnion` on the
`type` field over the seven response object schemas.  Non-objects and unknown
type tags fail; unknown extra keys are stripped, not rejected. -/
def parseNativeResponse (v : JValue) : Option NativeResponse :=
  match v with
  | JValue.obj fields =>
    match getField fields "type" with
    | some (JValue.str t) =>
      if t = "native.pong" then parsePong fields
      else if t = "native.patternsList" then parsePatternsList fields
      else if t = "native.contextsList" then parseContextsList fields
      else if t = "native.content" then parseContentResp fields
      else if t = "native.done" then parseDone fields
      else if t = "native.error" then parseErrorResp fields
      else if t = "native.cancelled" then parseCancelled fields
      else none
    | _ => none
  | _ => none

/-- safeParse of `InternalRequestSchema` in `shared/messages.ts`, a
`z.discriminatedUnion` on the `type` field over the six internal request
object schemas.  There is no `internal.cancelProcess` variant. -/
def parseInternalRequest (v : JValue) : Option InternalRequest :=
  match v with
  | JValue.obj fields =>
    match getField fields "type" with
    | some (JValue.str t) =>
      if t = "internal.connectionStatus" then some InternalRequest.connectionStatus
      else if t = "internal.listPatterns" then some InternalRequest.listPatterns
      else if t = "internal.listContexts" then some InternalRequest.listContexts
      else if t = "internal.capturePage" then
        match optBoolField fields "rawContent" with
        | some rc => some (InternalRequest.capturePage rc)
        | none => none
      else if t = "internal.processContent" then
        match getField fields "content", optStrField fields "pattern",
            optStrField fields "customPrompt" with
        | some (JValue.str c), some p, some cp =>
            some (InternalRequest.processContent c p cp)
        | _, _, _ => none
      else if t = "internal.reconnectNative" then some InternalRequest.reconnectNative
      else none
    | _ => none
  | _ => none

/-- Validity of `NativeRequestSchema.safeParse` on the request objects that
`background.ts` itself constructs: every field other than the correlation
identifiers is well-typed by construction, so success is exactly the `z.uuid()`
checks. -/
def nativeRequestValid : NativeRequest → Bool
  | NativeRequest.ping id _ => isUUID id
  | NativeRequest.listPatterns id _ => isUUID id
  | NativeRequest.listContexts id _ => isUUID id
  | NativeRequest.processContent id _ _ _ _ _ _ => isUUID id
  | NativeRequest.cancelProcess id rid _ => isUUID id && isUUID rid

/-- Snapshot of the string-valued keys of `chrome.storage.local` that the
fabric settings code touches.  A `none` entry is an absent key. -/
structure Storage where
  fabricPath : Option String
  fabricModel : Option String
  fabricContext : Option String
deriving DecidableEq

/-- Truthiness of a possibly absent stored string, as tested by
`if (stored.fabricPath)`: absent and empty strings are falsy. -/
def truthyStr : Option String → Bool
  | some s => !s.isEmpty
  | none => false

/-- Result type of `loadFabricSettings` in `shared/settings.ts`: the function
returns an object with optional `path` and `model` keys only. -/
structure FabricSettings where
  path : Option String
  model : Option String
deriving DecidableEq

/-- loadFabricSettings from `shared/settings.ts`: it requests only the
`fabricPath` and `fabricModel` keys from local storage and copies each to the
result when truthy.  It never reads `fabricContext`. -/
def loadFabricSettings (st : Storage) : FabricSettings :=
  { path := if truthyStr st.fabricPath then st.fabricPath else none
    model := if truthyStr st.fabricModel then st.fabricModel else none }

/-- Result shape that the repository test suite (`shared/settings.test.ts`)
expects from `loadFabricSettings`, with a `context` key as well. -/
structure FabricSettingsFull where
  path : Option String
  model : Option String
  context : Option String
deriving DecidableEq

/-- Settings loader as specified by the repository tests in
`shared/settings.test.ts`, which expect `chrome.storage.local.get` to be
called with `fabricPath`, `fabricModel` and `fabricContext` and the stored
context to be returned under the `context` key.  This is the comparison
definition for the divergence of the implemented `loadFabricSettings`. -/
def loadFabricSettingsPerTests (st : Storage) : FabricSettingsFull :=
  { path := if truthyStr st.fabricPath then st.fabricPath else none
    model := if truthyStr st.fabricModel then st.fabricModel else none
    context := if truthyStr st.fabricContext then st.fabricContext else none }

/-- Native messaging port handles, identified by an opaque number. -/
abbrev Port := Nat

/-- Connection is the tagged union over the three peer-side connection states
held in the module-level `nativeConnection` of `background.ts`. -/
inductive Connection where
  | disconnected
  | connecting (port : Port)
  | connected (port : Port)
deriving DecidableEq

/-- Status string computed by `broadcastConnectionStatus` and the
connectionStatus request handler: `connected` exactly in the connected state. -/
def statusOf : Connection → StatusMsg
  | Connection.connected _ => StatusMsg.connected
  | _ => StatusMsg.disconnected

/-- Mutable module state of `background.ts`: the `nativeConnection` variable
and the `pendingRequests` map from correlation id to the stored response
callback.  Callbacks are identified by opaque numbers; the list keeps the
insertion order that `Map` iteration follows. -/
structure BGState where
  conn : Connection
  pending : List (String × Nat)
deriving DecidableEq

/-- Map.set on the pending-requests map: replace in place when the key exists,
otherwise append. -/
def mapSet (m : List (String × Nat)) (key : String) (cb : Nat) : List (String × Nat) :=
  if m.any (fun e => e.1 == key) then
    m.map (fun e => if e.1 == key then (key, cb) else e)
  else m ++ [(key, cb)]

/-- Map.delete on the pending-requests map. -/
def mapDelete (m : List (String × Nat)) (key : String) : List (String × Nat) :=
  m.filter (fun e => e.1 != key)

/-- Map.get on the pending-requests map. -/
def mapGet (m : List (String × Nat)) (key : String) : Option Nat :=
  match m.find? (fun e => e.1 == key) with
  | some e => some e.2
  | none => none

/-- Observable side effects of the background script, in statement order:
opening and disconnecting native ports, posting frames on the port, recording
a pending entry, invoking a stored pending callback, replying through the
current sendResponse callback, broadcasting a runtime message to listeners,
and logging a warning for an ignored frame. -/
inductive Event where
  | openPort (port : Port)
  | disconnectPort (port : Port)
  | post (port : Port) (frame : NativeRequest)
  | pendingSet (id : String) (cb : Nat)
  | invokeCallback (cb : Nat) (response : InternalResponse)
  | respond (response : InternalResponse)
  | broadcast (message : InternalResponse)
  | logWarn
deriving DecidableEq

/-- Recognizer for stored-callback invocation events. -/
def Event.isInvoke : Event → Bool
  | Event.invokeCallback _ _ => true
  | _ => false

/-- Recognizer for pending-entry recording events. -/
def Event.isPendingSet : Event → Bool
  | Event.pendingSet _ _ => true
  | _ => false

/-- Recognizer for frame-posting events. -/
def Event.isPost : Event → Bool
  | Event.post _ _ => true
  | _ => false

/-- cleanupPending from `background.ts`: invoke every stored callback once
with a synthetic `internal.processingError` carrying the reason, then clear
the map. -/
def cleanupPending (reason : String) (s : BGState) : BGState × List Event :=
  ({ s with pending := [] },
   s.pending.map (fun e =>
     Event.invokeCallback e.2 (InternalResponse.processingError reason)))

/-- Listener registered on `port.onDisconnect` inside `connectNative`:
cleanupPending with reason `Connection disconnected`, then set the connection
to disconnected and broadcast the (now disconnected) status. -/
def onPortDisconnect (s : BGState) : BGState × List Event :=
  let r := cleanupPending "Connection disconnected" s
  let s2 : BGState := { r.1 with conn := Connection.disconnected }
  (s2, r.2 ++ [Event.broadcast (InternalResponse.connectionStatus (statusOf s2.conn))])

/-- handleNativeMessage from `background.ts`: the switch over the parsed
native response.  Note that the switch has no case for `native.cancelled`,
which therefore falls through with no effect. -/
def handleNativeMessage (m : NativeResponse) (port : Port) (s : BGState) :
    BGState × List Event :=
  match m with
  | NativeResponse.pong _ _ _ valid =>
    if valid then
      let s1 : BGState := { s with conn := Connection.connected port }
      (s1, [Event.broadcast (InternalResponse.connectionStatus (statusOf s1.conn))])
    else
      let r := cleanupPending "Native host reported invalid state" s
      let s2 : BGState := { r.1 with conn := Connection.disconnected }
      (s2, r.2 ++ [Event.broadcast (InternalResponse.connectionStatus (statusOf s2.conn))])
  | NativeResponse.patternsList id ps =>
    match mapGet s.pending id with
    | some cb =>
      ({ s with pending := mapDelete s.pending id },
       [Event.invokeCallback cb (InternalResponse.patternsList ps)])
    | none => (s, [])
  | NativeResponse.contextsList id cs =>
    match mapGet s.pending id with
    | some cb =>
      ({ s with pending := mapDelete s.pending id },
       [Event.invokeCallback cb (InternalResponse.contextsList cs)])
    | none => (s, [])
  | NativeResponse.content _ c =>
    (s, [Event.broadcast (InternalResponse.processingContent c)])
  | NativeResponse.done id ec =>
    ({ s with pending := mapDelete s.pending id },
     [Event.broadcast (InternalResponse.processingDone ec)])
  | NativeResponse.error id msg =>
    ({ s with pending := mapDelete s.pending id },
     [Event.broadcast (InternalResponse.processingError msg)])
  | NativeResponse.cancelled _ _ => (s, [])

/-- Listener registered on `port.onMessage` inside `connectNative`: run the
response through `NativeResponseSchema.safeParse`; dispatch on success, log a
warning and do nothing on failure. -/
def onPortMessage (raw : JValue) (port : Port) (s : BGState) : BGState × List Event :=
  match parseNativeResponse raw with
  | some m => handleNativeMessage m port s
  | none => (s, [Event.logWarn])

/-- startNativeHandshake from `background.ts`: read the fabric settings
fresh, build a `native.ping` frame with a freshly generated request id and
the stored path, and post it when the frame validates (log a warning
otherwise).  The connection state is not modified. -/
def startNativeHandshake (port : Port) (st : Storage) (freshId : String) : List Event :=
  let settings := loadFabricSettings st
  let frame := NativeRequest.ping freshId settings.path
  if nativeRequestValid frame then [Event.post port frame] else [Event.logWarn]

/-- connectNative from `background.ts`: from the disconnected state open a
native port, move to connecting, register the listeners and start the
handshake, returning the new port; from connecting or connected return the
already-held port with no further effect.  `fresh` is the port that
`chrome.runtime.connectNative` would return, `freshId` the generated
handshake request id. -/
def connectNative (fresh : Port) (st : Storage) (freshId : String) (s : BGState) :
    BGState × List Event × Port :=
  match s.conn with
  | Connection.disconnected =>
    let s1 : BGState := { s with conn := Connection.connecting fresh }
    (s1, Event.openPort fresh :: startNativeHandshake fresh st freshId, fresh)
  | Connection.connecting p => (s, [], p)
  | Connection.connected p => (s, [], p)

/-- Outcome of the `chrome.tabs` capture flow of the capturePage branch:
the tab query throws, no active tab exists, the content script is absent
(`chrome.runtime.lastError` set), or a response arrives. -/
inductive CaptureOutcome where
  | queryError (message : String)
  | noActiveTab
  | noContentScript
  | got (response : InternalResponse)
deriving DecidableEq

/-- Nondeterministic inputs of one `handleMessage` invocation: the request id
that `generateRequestId` returns, the opaque identity of the current
`sendResponse` callback, whether `port.postMessage` succeeds or throws, the
port a reconnection attempt would open, and the capture outcome. -/
structure Env where
  freshId : String
  cb : Nat
  postOk : Bool
  freshPort : Port
  capture : CaptureOutcome
deriving DecidableEq

/-- handleMessage from `background.ts`: the switch over a validated internal
request.  Each branch that talks to the native host first requires the
connected state, reads the fabric settings fresh from storage, builds and
validates the native frame, then posts it and records the pending entry (in
that statement order); when posting throws, the catch replies with a
processingError and no pending entry is recorded.  The switch has no case
for a cancelProcess request, which the schema cannot produce. -/
def handleMessage (data : InternalRequest) (env : Env) (st : Storage) (s : BGState) :
    BGState × List Event :=
  match data with
  | InternalRequest.connectionStatus =>
    (s, [Event.respond (InternalResponse.connectionStatus (statusOf s.conn))])
  | InternalRequest.reconnectNative =>
    let disc : List Event :=
      match s.conn with
      | Connection.connected p => [Event.disconnectPort p]
      | Connection.connecting p => [Event.disconnectPort p]
      | Connection.disconnected => []
    let r := cleanupPending "Connection reset during reconnection" s
    let s2 : BGState := { r.1 with conn := Connection.disconnected }
    let bc := [Event.broadcast (InternalResponse.connectionStatus (statusOf s2.conn))]
    let c := connectNative env.freshPort st env.freshId s2
    (c.1, disc ++ r.2 ++ bc ++ c.2.1 ++
      [Event.respond (InternalResponse.connectionStatus StatusMsg.disconnected)])
  | InternalRequest.listPatterns =>
    match s.conn with
    | Connection.connected port =>
      let settings := loadFabricSettings st
      let frame := NativeRequest.listPatterns env.freshId settings.path
      if nativeRequestValid frame then
        if env.postOk then
          ({ s with pending := mapSet s.pending env.freshId env.cb },
           [Event.post port frame, Event.pendingSet env.freshId env.cb])
        else
          (s, [Event.respond (InternalResponse.processingError
            "Failed to send request to native host")])
      else
        (s, [Event.respond (InternalResponse.processingError
          "Invalid request configuration")])
    | _ =>
      (s, [Event.respond (InternalResponse.processingError "Not connected to native host")])
  | InternalRequest.listContexts =>
    match s.conn with
    | Connection.connected port =>
      let settings := loadFabricSettings st
      let frame := NativeRequest.listContexts env.freshId settings.path
      if nativeRequestValid frame then
        if env.postOk then
          ({ s with pending := mapSet s.pending env.freshId env.cb },
           [Event.post port frame, Event.pendingSet env.freshId env.cb])
        else
          (s, [Event.respond (InternalResponse.processingError
            "Failed to send request to native host")])
      else
        (s, [Event.respond (InternalResponse.processingError
          "Invalid request configuration")])
    | _ =>
      (s, [Event.respond (InternalResponse.processingError "Not connected to native host")])
  | InternalRequest.capturePage _ =>
    match env.capture with
    | CaptureOutcome.queryError msg =>
      (s, [Event.respond (InternalResponse.processingError
        ("Failed to capture page: " ++ msg))])
    | CaptureOutcome.noActiveTab =>
      (s, [Event.respond (InternalResponse.processingError "No active tab")])
    | CaptureOutcome.noContentScript =>
      (s, [Event.respond (InternalResponse.processingError
        "Content script not available. Please refresh the page.")])
    | CaptureOutcome.got resp => (s, [Event.respond resp])
  | InternalRequest.processContent content pat customPrompt =>
    match s.conn with
    | Connection.connected port =>
      let settings := loadFabricSettings st
      -- The source destructures path, model and context from the result of
      -- loadFabricSettings; that function returns no context key, so the
      -- destructured context binding is always undefined.
      let fabricContext : Option String := none
      let frame := NativeRequest.processContent env.freshId content settings.model pat
        fabricContext settings.path customPrompt
      if nativeRequestValid frame then
        if env.postOk then
          ({ s with pending := mapSet s.pending env.freshId env.cb },
           [Event.post port frame, Event.pendingSet env.freshId env.cb])
        else
          (s, [Event.respond (InternalResponse.processingError
            "Failed to send request to native host")])
      else
        (s, [Event.respond (InternalResponse.processingError
          "Invalid request configuration")])
    | _ =>
      (s, [Event.respond (InternalResponse.processingError "Not connected to native host")])

/-- Listener registered on `chrome.runtime.onMessage` in `background.ts`: run
the raw message through `InternalRequestSchema.safeParse`; on success dispatch
to handleMessage and return true, on failure reply with an
`Invalid request format` processingError and return false. -/
def onRuntimeMessage (raw : JValue) (env : Env) (st : Storage) (s : BGState) :
    BGState × List Event × Bool :=
  match parseInternalRequest raw with
  | some req =>
    let r := handleMessage req env st s
    (r.1, r.2, true)
  | none =>
    (s, [Event.respond (InternalResponse.processingError "Invalid request format")], false)

/-- Outcome of one `chrome.runtime.sendMessage` call as observed by
`sendSafely`: the promise resolves (possibly with no response) or rejects
with an error message. -/
inductive SendOutcome where
  | resolved (response : Option InternalResponse)
  | rejected (message : String)
deriving DecidableEq

/-- sendSafely from `shared/connection.ts`: return the resolved response, and
on any rejection (receiving end missing or otherwise) swallow the error and
return undefined. -/
def sendSafely (_request : InternalRequest) (out : SendOutcome) : Option InternalResponse :=
  match out with
  | SendOutcome.resolved r => r
  | SendOutcome.rejected _ => none

/-- getConnectionStatus from `shared/connection.ts`: send an internal
connectionStatus query through sendSafely and return the carried status when
the response is a connectionStatus response, and `disconnected` otherwise. -/
def getConnectionStatus (out : SendOutcome) : StatusMsg :=
  match sendSafely InternalRequest.connectionStatus out with
  | some (InternalResponse.connectionStatus st) => st
  | _ => StatusMsg.disconnected

/-- Fixture UUID taken from the repository test suite. -/
def uuid0 : String := "f47ac10b-58cc-4372-a567-0e02b2c3d479"

/-- Second fixture UUID. -/
def uuid1 : String := "a47ac10b-58cc-4372-a567-0e02b2c3d479"

/-- Fixture handler environment: fresh id `uuid0`, callback token 7, posting
succeeds, a reconnection attempt would open port 9. -/
def env0 : Env :=
  { freshId := uuid0, cb := 7, postOk := true, freshPort := 9,
    capture := CaptureOutcome.noActiveTab }

/-- Fixture storage with a configured fabric path only. -/
def st0 : Storage :=
  { fabricPath := some "/opt/fabric", fabricModel := none, fabricContext := none }

/-- Fixture state: connected on port 3 with no pending requests. -/
def sConn : BGState := ⟨Connection.connected 3, []⟩

/-- Fixture pending map holding one entry for `uuid0` with callback token 7. -/
def pendingOne : List (String × Nat) := [(uuid0, 7)]

/-- C1: on the disconnect notification of the native port, every stored
pending callback is invoked exactly once with a synthetic
internal.processingError response, the pending map is cleared, and the
connection state becomes disconnected, for every prior map contents.  The
emitted trace contains one invocation per stored entry, in map order,
followed by the disconnected-status broadcast. -/
theorem teardown_resolves_all_pending (s : BGState) :
    (onPortDisconnect s).1.conn = Connection.disconnected ∧
    (onPortDisconnect s).1.pending = [] ∧
    (onPortDisconnect s).2 =
      s.pending.map (fun e =>
        Event.invokeCallback e.2 (InternalResponse.processingError "Connection disconnected"))
      ++ [Event.broadcast (InternalResponse.connectionStatus StatusMsg.disconnected)] :=
  ⟨rfl, rfl, rfl⟩

/-- C2: a received pong with valid true moves the connection to connected and
the emitted trace is exactly one broadcast carrying the connected status; a
pong with valid false moves the connection to disconnected (resolving any
pending callbacks with a synthetic error) and broadcasts the disconnected
status. -/
theorem pong_transitions_and_broadcasts (s : BGState) (port : Port) (id : String)
    (rp ver : Option String) :
    handleNativeMessage (NativeResponse.pong id rp ver true) port s =
      ({ s with conn := Connection.connected port },
       [Event.broadcast (InternalResponse.connectionStatus StatusMsg.connected)]) ∧
    handleNativeMessage (NativeResponse.pong id rp ver false) port s =
      (⟨Connection.disconnected, []⟩,
       s.pending.map (fun e =>
         Event.invokeCallback e.2
           (InternalResponse.processingError "Native host reported invalid state"))
       ++ [Event.broadcast (InternalResponse.connectionStatus StatusMsg.disconnected)]) :=
  ⟨rfl, rfl⟩

/-- C3 counterexample: with a pending entry stored for the correlation id, a
terminal native.done frame removes the entry but emits only a broadcast; the
stored callback is never invoked, refuting the claim that the terminal frame
resolves the pending entry by invoking its stored callback. -/
theorem terminal_done_no_callback_cex :
    mapGet pendingOne uuid0 = some 7 ∧
    handleNativeMessage (NativeResponse.done uuid0 (some 0)) 3
        ⟨Connection.connected 3, pendingOne⟩ =
      (⟨Connection.connected 3, []⟩,
       [Event.broadcast (InternalResponse.processingDone (some 0))]) ∧
    ([Event.broadcast (InternalResponse.processingDone (some 0))].filter Event.isInvoke) = [] :=
  ⟨rfl, rfl, rfl⟩

/-- C3 amended: while a processContent operation has a pending entry, every
native.content frame for its id is rebroadcast to listeners and leaves the
pending map untouched; the pending entry is removed only by the terminal
done or error frame, which is itself rebroadcast to listeners rather than
invoking the stored callback. -/
theorem content_rebroadcast_terminal_deletes (s : BGState) (port : Port) (id : String)
    (c : String) (ec : Option Int) (msg : String) :
    handleNativeMessage (NativeResponse.content id c) port s =
      (s, [Event.broadcast (InternalResponse.processingContent c)]) ∧
    handleNativeMessage (NativeResponse.done id ec) port s =
      ({ s with pending := mapDelete s.pending id },
       [Event.broadcast (InternalResponse.processingDone ec)]) ∧
    handleNativeMessage (NativeResponse.error id msg) port s =
      ({ s with pending := mapDelete s.pending id },
       [Event.broadcast (InternalResponse.processingError msg)]) :=
  ⟨rfl, rfl, rfl⟩

/-- C8: an inbound native frame that fails NativeResponseSchema validation is
logged and ignored: the listener terminates normally with the state, hence
the connection and pending map, unchanged. -/
theorem unknown_native_frame_ignored (raw : JValue) (port : Port) (s : BGState)
    (h : parseNativeResponse raw = none) :
    onPortMessage raw port s = (s, [Event.logWarn]) := by
  unfold onPortMessage
  rw [h]

/-- Witness for C8 at a frame with an unknown type tag and a nonempty pending
map. -/
theorem unknown_native_frame_ignored_witness :
    onPortMessage (JValue.obj [("type", JValue.str "native.bogus")]) 3
        ⟨Connection.connected 3, pendingOne⟩ =
      (⟨Connection.connected 3, pendingOne⟩, [Event.logWarn]) :=
  unknown_native_frame_ignored (JValue.obj [("type", JValue.str "native.bogus")]) 3
    ⟨Connection.connected 3, pendingOne⟩ rfl

/-- C9: connectNative is idempotent on non-disconnected states: from
connecting or connected it opens no port, changes nothing and returns the
held port; only from disconnected does it open the fresh port and move the
state to connecting, leaving the pending map unchanged. -/
theorem connectNative_idempotent (s : BGState) (p fresh : Port) (st : Storage)
    (fid : String) :
    ((s.conn = Connection.connecting p ∨ s.conn = Connection.connected p) →
      connectNative fresh st fid s = (s, [], p)) ∧
    (s.conn = Connection.disconnected →
      connectNative fresh st fid s =
        (⟨Connection.connecting fresh, s.pending⟩,
         Event.openPort fresh :: startNativeHandshake fresh st fid, fresh)) := by
  constructor
  · intro h
    rcases h with h | h <;> (unfold connectNative; rw [h])
  · intro h
    unfold connectNative
    rw [h]

/-- Witness for C9: from the connected state on port 3, connectNative returns
port 3 with no events and no state change. -/
theorem connectNative_idempotent_witness :
    connectNative 9 st0 uuid0 ⟨Connection.connected 3, pendingOne⟩ =
      (⟨Connection.connected 3, pendingOne⟩, [], 3) :=
  (connectNative_idempotent ⟨Connection.connected 3, pendingOne⟩ 3 9 st0 uuid0).1
    (Or.inr rfl)

/-- C10: sendSafely returns undefined on every messaging rejection instead of
propagating it, and getConnectionStatus falls back to disconnected whenever
the response is absent or is not an internal connectionStatus response. -/
theorem sendSafely_total_getStatus_default :
    (∀ req msg, sendSafely req (SendOutcome.rejected msg) = none) ∧
    (∀ out, sendSafely InternalRequest.connectionStatus out = none →
      getConnectionStatus out = StatusMsg.disconnected) ∧
    (∀ out r, sendSafely InternalRequest.connectionStatus out = some r →
      (∀ st, r ≠ InternalResponse.connectionStatus st) →
      getConnectionStatus out = StatusMsg.disconnected) := by
  refine ⟨fun req msg => rfl, fun out h => ?_, fun out r h hr => ?_⟩
  · unfold getConnectionStatus
    rw [h]
  · unfold getConnectionStatus
    rw [h]
    cases r with
    | connectionStatus st => exact absurd rfl (hr st)
    | patternsList a => rfl
    | contextsList a => rfl
    | pageContent a => rfl
    | processingContent a => rfl
    | processingDone a => rfl
    | processingError a => rfl

/-- Witness for C10: a rejected send yields undefined, and a resolved
response of the wrong variant yields the disconnected fallback. -/
theorem sendSafely_total_getStatus_default_witness :
    sendSafely InternalRequest.connectionStatus (SendOutcome.rejected "boom") = none ∧
    getConnectionStatus (SendOutcome.resolved (some (InternalResponse.patternsList []))) =
      StatusMsg.disconnected :=
  ⟨sendSafely_total_getStatus_default.1 InternalRequest.connectionStatus "boom",
   sendSafely_total_getStatus_default.2.2
     (SendOutcome.resolved (some (InternalResponse.patternsList [])))
     (InternalResponse.patternsList []) rfl (fun _ h => nomatch h)⟩

/-- Ordering predicate of the original C4 claim over an emitted event trace:
every frame-posting event is preceded by some pending-entry recording. -/
def recordedBeforePosted (evs : List Event) : Bool :=
  (List.range evs.length).all (fun j =>
    match evs.get? j with
    | some (Event.post _ _) => (evs.take j).any Event.isPendingSet
    | _ => true)

/-- C4 counterexample: a listPatterns request sent while connected posts the
frame first and records the pending entry second, so the trace violates the
claimed recorded-before-posted ordering. -/
theorem pending_recorded_after_post_cex :
    handleMessage InternalRequest.listPatterns env0 st0 sConn =
      (⟨Connection.connected 3, pendingOne⟩,
       [Event.post 3 (NativeRequest.listPatterns uuid0 (some "/opt/fabric")),
        Event.pendingSet uuid0 7]) ∧
    recordedBeforePosted
      [Event.post 3 (NativeRequest.listPatterns uuid0 (some "/opt/fabric")),
       Event.pendingSet uuid0 7] = false :=
  ⟨rfl, rfl⟩

/-- C4 amended: for every outbound native request sent while connected, the
pending entry keyed by the fresh correlation id is recorded immediately after
the frame is posted, within the same synchronous handler invocation; when
posting throws, no pending entry is recorded and a processingError response
is sent instead. -/
theorem pending_recorded_with_post (st : Storage) (env : Env) (s : BGState) (port : Port)
    (c : String) (pat cp : Option String) :
    (s.conn = Connection.connected port → isUUID env.freshId = true → env.postOk = true →
      handleMessage InternalRequest.listPatterns env st s =
        ({ s with pending := mapSet s.pending env.freshId env.cb },
         [Event.post port (NativeRequest.listPatterns env.freshId (loadFabricSettings st).path),
          Event.pendingSet env.freshId env.cb])) ∧
    (s.conn = Connection.connected port → isUUID env.freshId = true → env.postOk = true →
      handleMessage InternalRequest.listContexts env st s =
        ({ s with pending := mapSet s.pending env.freshId env.cb },
         [Event.post port (NativeRequest.listContexts env.freshId (loadFabricSettings st).path),
          Event.pendingSet env.freshId env.cb])) ∧
    (s.conn = Connection.connected port → isUUID env.freshId = true → env.postOk = true →
      handleMessage (InternalRequest.processContent c pat cp) env st s =
        ({ s with pending := mapSet s.pending env.freshId env.cb },
         [Event.post port (NativeRequest.processContent env.freshId c
            (loadFabricSettings st).model pat none (loadFabricSettings st).path cp),
          Event.pendingSet env.freshId env.cb])) ∧
    (s.conn = Connection.connected port → isUUID env.freshId = true → env.postOk = false →
      handleMessage InternalRequest.listPatterns env st s =
        (s, [Event.respond (InternalResponse.processingError
          "Failed to send request to native host")])) ∧
    (s.conn = Connection.connected port → isUUID env.freshId = true → env.postOk = false →
      handleMessage InternalRequest.listContexts env st s =
        (s, [Event.respond (InternalResponse.processingError
          "Failed to send request to native host")])) ∧
    (s.conn = Connection.connected port → isUUID env.freshId = true → env.postOk = false →
      handleMessage (InternalRequest.processContent c pat cp) env st s =
        (s, [Event.respond (InternalResponse.processingError
          "Failed to send request to native host")])) := by
  refine ⟨?_, ?_, ?_, ?_, ?_, ?_⟩ <;>
    (intro h hu hp
     unfold handleMessage
     rw [h]
     simp [nativeRequestValid, hu, hp])

/-- Witness for C4 amended at the connected fixture state, exercising the
successful listContexts branch and the failing-post processContent branch. -/
theorem pending_recorded_with_post_witness :
    handleMessage InternalRequest.listContexts env0 st0 sConn =
      ({ sConn with pending := mapSet sConn.pending env0.freshId env0.cb },
       [Event.post 3 (NativeRequest.listContexts env0.freshId (loadFabricSettings st0).path),
        Event.pendingSet env0.freshId env0.cb]) ∧
    handleMessage (InternalRequest.processContent "hello" none none)
        { env0 with postOk := false } st0 sConn =
      (sConn, [Event.respond (InternalResponse.processingError
        "Failed to send request to native host")]) :=
  ⟨(pending_recorded_with_post st0 env0 sConn 3 "" none none).2.1 rfl rfl rfl,
   (pending_recorded_with_post st0 { env0 with postOk := false } sConn 3
      "hello" none none).2.2.2.2.2 rfl rfl rfl⟩

/-- Internal cancelProcess message as the repository background tests send
it. -/
def cancelMsgJson : JValue :=
  JValue.obj [("type", JValue.str "internal.cancelProcess"), ("requestId", JValue.str uuid0)]

/-- C5: an internal cancelProcess message fails InternalRequestSchema
validation (the schema has no such variant), so the background listener
rejects it with an Invalid request format processingError even while
connected, and no native.cancelProcess frame is posted; capturePage,
processContent and the connection-status query do validate.  This records
the divergence from the collaborator interface and the background tests. -/
theorem cancelProcess_rejected_eval :
    parseInternalRequest cancelMsgJson = none ∧
    onRuntimeMessage cancelMsgJson env0 st0 sConn =
      (sConn, [Event.respond (InternalResponse.processingError "Invalid request format")],
       false) ∧
    parseInternalRequest (JValue.obj [("type", JValue.str "internal.connectionStatus")]) =
      some InternalRequest.connectionStatus ∧
    parseInternalRequest (JValue.obj [("type", JValue.str "internal.capturePage")]) =
      some (InternalRequest.capturePage none) ∧
    parseInternalRequest (JValue.obj [("type", JValue.str "internal.processContent"),
        ("content", JValue.str "hello")]) =
      some (InternalRequest.processContent "hello" none none) :=
  ⟨rfl, rfl, rfl, rfl, rfl⟩

/-- Storage fixture with a configured fabric path, model and context. -/
def st6 : Storage :=
  { fabricPath := some "/usr/local/bin/fabric", fabricModel := some "gpt-4o",
    fabricContext := some "tapestry" }

/-- C6: with a context override configured in storage, the implemented
loadFabricSettings returns no context (it never reads the fabricContext key),
whereas the loader specified by the repository settings tests returns it;
consequently the posted native.processContent frame carries path and model
read fresh from storage but an absent context field. -/
theorem processContent_drops_context_eval :
    loadFabricSettings st6 =
      { path := some "/usr/local/bin/fabric", model := some "gpt-4o" } ∧
    loadFabricSettingsPerTests st6 =
      { path := some "/usr/local/bin/fabric", model := some "gpt-4o",
        context := some "tapestry" } ∧
    handleMessage (InternalRequest.processContent "hello" (some "summarize") none)
        env0 st6 sConn =
      (⟨Connection.connected 3, pendingOne⟩,
       [Event.post 3 (NativeRequest.processContent uuid0 "hello" (some "gpt-4o")
          (some "summarize") none (some "/usr/local/bin/fabric") none),
        Event.pendingSet uuid0 7]) :=
  ⟨rfl, rfl, rfl⟩

/-- Presence of a known native response type tag on a JSON object. -/
def typeTagKnown (fields : List (String × JValue)) : Bool :=
  match getField fields "type" with
  | some (JValue.str t) => knownNativeTag t
  | _ => false

/-- Combined shape condition every accepted native response payload meets: an
object whose type tag is one of the seven envelope shapes and whose mandatory
id field is a UUID string. -/
def hasKnownTagAndValidId : JValue → Bool
  | JValue.obj fields => typeTagKnown fields && validIdField fields
  | _ => false

/-- Presence of a UUID-string correlation id field on a payload. -/
def hasValidCorrelationId : JValue → Bool
  | JValue.obj fields => validIdField fields
  | _ => false

/-- Lemma: a successful run of the shared mandatory-id validation implies the
id field is present and a UUID string. -/
theorem requireUuidId_validId (fields : List (String × JValue))
    (rest : String → Option NativeResponse) (r : NativeResponse)
    (h : requireUuidId fields rest = some r) : validIdField fields = true := by
  unfold requireUuidId at h
  unfold validIdField
  split at h
  · rename_i id heq
    split at h
    · rename_i hu
      exact hu
    · simp at h
  · simp at h

/-- Lemma: every payload accepted by NativeResponseSchema is an object with a
known type tag and a UUID-string id field. -/
theorem parseNativeResponse_shape (v : JValue) (r : NativeResponse)
    (h : parseNativeResponse v = some r) : hasKnownTagAndValidId v = true := by
  cases v with
  | obj fields =>
    simp only [parseNativeResponse] at h
    show (typeTagKnown fields && validIdField fields) = true
    rw [Bool.and_eq_true]
    split at h
    · rename_i t heq
      split_ifs at h with h1 h2 h3 h4 h5 h6 h7
      · exact ⟨by unfold typeTagKnown; rw [heq, h1]; rfl,
          requireUuidId_validId fields _ r (by unfold parsePong at h; exact h)⟩
      · exact ⟨by unfold typeTagKnown; rw [heq, h2]; rfl,
          requireUuidId_validId fields _ r (by unfold parsePatternsList at h; exact h)⟩
      · exact ⟨by unfold typeTagKnown; rw [heq, h3]; rfl,
          requireUuidId_validId fields _ r (by unfold parseContextsList at h; exact h)⟩
      · exact ⟨by unfold typeTagKnown; rw [heq, h4]; rfl,
          requireUuidId_validId fields _ r (by unfold parseContentResp at h; exact h)⟩
      · exact ⟨by unfold typeTagKnown; rw [heq, h5]; rfl,
          requireUuidId_validId fields _ r (by unfold parseDone at h; exact h)⟩
      · exact ⟨by unfold typeTagKnown; rw [heq, h6]; rfl,
          requireUuidId_validId fields _ r (by unfold parseErrorResp at h; exact h)⟩
      · exact ⟨by unfold typeTagKnown; rw [heq, h7]; rfl,
          requireUuidId_validId fields _ r (by unfold parseCancelled at h; exact h)⟩
    · simp at h
  | null => exact Option.noConfusion h
  | bool b => exact Option.noConfusion h
  | num n => exact Option.noConfusion h
  | str s => exact Option.noConfusion h
  | arr xs => exact Option.noConfusion h

/-- Lemma: a payload whose mandatory correlation id field is missing or not a
UUID string is rejected by NativeResponseSchema. -/
theorem parseNativeResponse_rejects_invalid_id (v : JValue)
    (hv : hasValidCorrelationId v = false) : parseNativeResponse v = none := by
  cases hp : parseNativeResponse v with
  | none => rfl
  | some r =>
    have hk := parseNativeResponse_shape v r hp
    cases v with
    | obj fields =>
      have h2 : (typeTagKnown fields && validIdField fields) = true := hk
      rw [Bool.and_eq_true] at h2
      have hv2 : validIdField fields = false := hv
      rw [h2.2] at hv2
      exact Bool.noConfusion hv2
    | null => exact Bool.noConfusion hk
    | bool b => exact Bool.noConfusion hk
    | num n => exact Bool.noConfusion hk
    | str s => exact Bool.noConfusion hk
    | arr xs => exact Bool.noConfusion hk

/-- Accepted pong payload fixture. -/
def exPong : JValue :=
  JValue.obj [("type", JValue.str "native.pong"), ("id", JValue.str uuid0),
    ("resolvedPath", JValue.str "/opt/fabric"), ("version", JValue.str "1.0.0"),
    ("valid", JValue.bool true)]

/-- Accepted patternsList payload fixture. -/
def exPatterns : JValue :=
  JValue.obj [("type", JValue.str "native.patternsList"), ("id", JValue.str uuid0),
    ("patterns", JValue.arr [JValue.str "summarize"])]

/-- Accepted contextsList payload fixture. -/
def exContexts : JValue :=
  JValue.obj [("type", JValue.str "native.contextsList"), ("id", JValue.str uuid0),
    ("contexts", JValue.arr [JValue.str "tapestry"])]

/-- Accepted content payload fixture. -/
def exContent : JValue :=
  JValue.obj [("type", JValue.str "native.content"), ("id", JValue.str uuid0),
    ("content", JValue.str "line1")]

/-- Accepted done payload fixture. -/
def exDone : JValue :=
  JValue.obj [("type", JValue.str "native.done"), ("id", JValue.str uuid0),
    ("exitCode", JValue.num 0)]

/-- Accepted error payload fixture. -/
def exError : JValue :=
  JValue.obj [("type", JValue.str "native.error"), ("id", JValue.str uuid0),
    ("message", JValue.str "boom")]

/-- Accepted cancelled payload fixture. -/
def exCancelled : JValue :=
  JValue.obj [("type", JValue.str "native.cancelled"), ("id", JValue.str uuid0),
    ("requestId", JValue.str uuid1)]

/-- C7: NativeResponseSchema accepts exactly the seven envelope shapes pong,
patternsList, contextsList, content, done, error and cancelled: every
accepted payload is an object carrying one of those type tags together with a
UUID-string id, every payload whose mandatory correlation id is missing or
not a UUID string is rejected, and each of the seven shapes is accepted on a
well-formed payload. -/
theorem nativeResponse_validation_exact :
    (∀ v r, parseNativeResponse v = some r → hasKnownTagAndValidId v = true) ∧
    (∀ v, hasValidCorrelationId v = false → parseNativeResponse v = none) ∧
    parseNativeResponse exPong =
      some (NativeResponse.pong uuid0 (some "/opt/fabric") (some "1.0.0") true) ∧
    parseNativeResponse exPatterns = some (NativeResponse.patternsList uuid0 ["summarize"]) ∧
    parseNativeResponse exContexts = some (NativeResponse.contextsList uuid0 ["tapestry"]) ∧
    parseNativeResponse exContent = some (NativeResponse.content uuid0 "line1") ∧
    parseNativeResponse exDone = some (NativeResponse.done uuid0 (some 0)) ∧
    parseNativeResponse exError = some (NativeResponse.error uuid0 "boom") ∧
    parseNativeResponse exCancelled = some (NativeResponse.cancelled uuid0 uuid1) :=
  ⟨parseNativeResponse_shape, parseNativeResponse_rejects_invalid_id,
   rfl, rfl, rfl, rfl, rfl, rfl, rfl⟩

/-- Witness for C7: the pong fixture is accepted and meets the shape
condition, and a pong payload with no id field is rejected. -/
theorem nativeResponse_validation_exact_witness :
    hasKnownTagAndValidId exPong = true ∧
    parseNativeResponse (JValue.obj [("type", JValue.str "native.pong"),
      ("valid", JValue.bool true)]) = none :=
  ⟨nativeResponse_validation_exact.1 exPong
     (NativeResponse.pong uuid0 (some "/opt/fabric") (some "1.0.0") true) rfl,
   nativeResponse_validation_exact.2.1
     (JValue.obj [("type", JValue.str "native.pong"), ("valid", JValue.bool true)]) rfl⟩

end Tapestry
